import Mathlib

/-!
# Verification of the StuddiSmart resilient request layer and tiered result cache

Shallow embedding of the retry/backoff wrapper (`withRetry`, two observed
variants in `src/services/geminiService.ts`), the free-tier result cache in
`handleGenerate` (`src/unnamed/part_000` and `src/unnamed/part_001`), the
content fingerprint `hashString`, and the normalization step of
`generateStudySet`.

JavaScript conventions used by the source are modelled explicitly:
thrown values are either strings or objects with optional `message` /
`status` / `code` fields and an optional nested `error` object; `||`
chooses the first truthy operand (empty string and numeric zero are
falsy, `undefined` is falsy); `localStorage` is a map from string keys
to stored entries, where a stored entry records the `JSON.parse`
outcome of the stored string.
-/

set_option maxHeartbeats 1000000
set_option maxRecDepth 100000

namespace StuddiSmart

/-! ## JavaScript value and error model -/

/-- A JS primitive appearing in error `status` / `code` fields: a number or a string. -/
inductive JsPrim where
  | num (n : Int)
  | str (s : String)
deriving DecidableEq, Repr

/-- JS truthiness of a primitive: `0` and `""` are falsy. -/
def JsPrim.truthy : JsPrim → Bool
  | .num n => n != 0
  | .str s => s != ""

/-- The optional `message` / `status` / `code` fields of a JS error object. -/
structure ErrInfo where
  message : Option String
  status : Option JsPrim
  code : Option JsPrim
deriving DecidableEq, Repr

/-- A thrown JS value as inspected by `withRetry`: either a plain string or an
error object with optional fields and an optional nested `error` object. -/
inductive JsError where
  | str (s : String)
  | obj (info : ErrInfo) (nested : Option ErrInfo)
deriving DecidableEq, Repr

/-- Property access `error?.message` (strings have no `message` property). -/
def JsError.messageProp : JsError → Option String
  | .str _ => none
  | .obj i _ => i.message

/-- Property access `error?.status`. -/
def JsError.statusProp : JsError → Option JsPrim
  | .str _ => none
  | .obj i _ => i.status

/-- Property access `error?.code`. -/
def JsError.codeProp : JsError → Option JsPrim
  | .str _ => none
  | .obj i _ => i.code

/-- Property access `error?.error` (the nested error object). -/
def JsError.nestedInfo : JsError → Option ErrInfo
  | .str _ => none
  | .obj _ n => n

/-- `a || b` where `a` is an optional string and `b` a string: first truthy wins. -/
def strOr (a : Option String) (b : String) : String :=
  match a with
  | some s => if s = "" then b else s
  | none => b

/-- `a || b` on optional strings, keeping `undefined`/falsiness of the tail. -/
def strOrO (a b : Option String) : Option String :=
  match a with
  | some s => if s = "" then b else some s
  | none => b

/-- `a || b` on optional JS primitives: first truthy wins, else `b` as given. -/
def primOrO (a b : Option JsPrim) : Option JsPrim :=
  match a with
  | some p => if p.truthy then some p else b
  | none => b

/-- `a || b` where the fallback is a plain primitive (e.g. `error?.status || ""`). -/
def primOr (a : Option JsPrim) (b : JsPrim) : JsPrim :=
  match a with
  | some p => if p.truthy then p else b
  | none => b

/-- `s.includes(pat)`: substring test on JS strings. -/
def jsIncludes (s pat : String) : Bool :=
  (List.range (s.length + 1)).any fun i =>
    (s.toList.drop i).take pat.length == pat.toList

/-- `s.toLowerCase()`, modelled characterwise (agrees with JS on ASCII,
which is all the classification markers use). -/
def jsToLower (s : String) : String :=
  ⟨s.data.map Char.toLower⟩

/-- `s.trim()`: strip leading and trailing whitespace. -/
def jsTrim (s : String) : String :=
  ⟨((s.data.dropWhile Char.isWhitespace).reverse.dropWhile Char.isWhitespace).reverse⟩

/-- A rendering standing in for `JSON.stringify` applied to a thrown value
(used by variant 1 only when the error has no truthy `message` property). -/
def jsonStringify : JsError → String
  | .str s => "\"" ++ s ++ "\""
  | .obj i _ =>
    "\x7b\"message\":" ++ (match i.message with | some m => "\"" ++ m ++ "\"" | none => "null") ++ "\x7d"

/-! ## Error classification, variant 1 (`src/services/geminiService.ts` lines 28-70) -/

/-- `const message = error?.message || (typeof error === 'string' ? error : JSON.stringify(error));` -/
def errMessage1 (e : JsError) : String :=
  match e with
  | .str s => s
  | .obj i _ => strOr i.message (jsonStringify e)

/-- `const status = error?.status || "";` -/
def errStatus1 (e : JsError) : JsPrim :=
  primOr e.statusProp (.str "")

/-- `isQuotaError` in variant 1's catch block. -/
def isQuotaError1 (e : JsError) : Bool :=
  jsIncludes (errMessage1 e) "429" ||
  jsIncludes (jsToLower (errMessage1 e)) "quota" ||
  jsIncludes (jsToLower (errMessage1 e)) "resource_exhausted" ||
  errStatus1 e == .str "RESOURCE_EXHAUSTED"

/-- `isOverloaded` in variant 1's catch block. -/
def isOverloaded1 (e : JsError) : Bool :=
  jsIncludes (errMessage1 e) "503" ||
  jsIncludes (jsToLower (errMessage1 e)) "overloaded" ||
  jsIncludes (jsToLower (errMessage1 e)) "unavailable" ||
  errStatus1 e == .str "UNAVAILABLE"

/-! ## Error classification, variant 2 (`src/services/geminiService.ts` lines 279-318) -/

/-- `const code = error?.code || error?.status || error?.error?.code || error?.error?.status;` -/
def errCode2 (e : JsError) : Option JsPrim :=
  primOrO e.codeProp
    (primOrO e.statusProp
      (primOrO (e.nestedInfo.bind (·.code)) (e.nestedInfo.bind (·.status))))

/-- `const status = error?.status || error?.error?.status || "";` -/
def errStatus2 (e : JsError) : JsPrim :=
  primOr (primOrO e.statusProp (e.nestedInfo.bind (·.status))) (.str "")

/-- `const message = error?.message || error?.error?.message || "";` -/
def errMessage2 (e : JsError) : String :=
  strOr (strOrO e.messageProp (e.nestedInfo.bind (·.message))) ""

/-- `isRetryable` in variant 2's catch block. -/
def isRetryable2 (e : JsError) : Bool :=
  errCode2 e == some (.num 429) ||
  errCode2 e == some (.str "429") ||
  errCode2 e == some (.num 503) ||
  errCode2 e == some (.str "503") ||
  errStatus2 e == .str "RESOURCE_EXHAUSTED" ||
  errStatus2 e == .str "UNAVAILABLE" ||
  jsIncludes (jsToLower (errMessage2 e)) "429" ||
  jsIncludes (jsToLower (errMessage2 e)) "503" ||
  jsIncludes (jsToLower (errMessage2 e)) "resource_exhausted" ||
  jsIncludes (jsToLower (errMessage2 e)) "overloaded" ||
  jsIncludes (jsToLower (errMessage2 e)) "unavailable" ||
  jsIncludes (jsToLower (errMessage2 e)) "too many requests"

/-! ## The `withRetry` wrappers -/

/-- A value thrown out of `withRetry`: the original caught value (`throw error`),
a fresh generic `Error` (`throw new Error(msg)`), or the distinguished
`QuotaExceededError` class. -/
inductive RetryThrow where
  | raw (e : JsError)
  | genericError (msg : String)
  | quotaExceeded (msg : String)
deriving DecidableEq, Repr

/-- Observable outcome of one `withRetry` run: the returned value or thrown
error, the number of calls made to the wrapped thunk, and the list of
backoff delays slept (in order, milliseconds). -/
structure RunResult (T : Type) where
  result : Except RetryThrow T
  calls : Nat
  sleeps : List Nat
deriving Repr

/-- The message of variant 1's `QuotaExceededError`. -/
def quotaMsg1 : String :=
  "You\x27ve reached the AI synthesis limit for this session. Please wait a few minutes or upgrade to bypass tier restrictions."

/-- Variant 1's final `throw new Error(lastError?.message || ...)` message. -/
def finalMessage1 (lastError : Option JsError) : String :=
  match lastError with
  | some e => strOr e.messageProp "AI synthesis failed due to high server load."
  | none => "AI synthesis failed due to high server load."

/-- The message of variant 2's retryable-exhaustion `Error`. -/
def busyMsg2 : String :=
  "The AI engine is currently experiencing extremely high traffic. Please wait a few seconds and try again."

/-- The message of variant 2's unreachable after-loop `Error`. -/
def overloadedMsg2 : String :=
  "AI service is currently overloaded. Please try again in a moment."

/-- Loop body of variant 1's `withRetry` (lines 28-70). The wrapped thunk is
modelled as a function from the attempt index to that attempt's outcome;
`fuel` counts the remaining loop iterations (`maxRetries - i`). -/
def withRetry1Go {T : Type} (fn : Nat → Except JsError T) (maxRetries : Nat) :
    Nat → Nat → Nat → Option JsError → Nat → List Nat → RunResult T
  | 0, _i, _delay, lastError, calls, sleeps =>
    ⟨.error (.genericError (finalMessage1 lastError)), calls, sleeps⟩
  | fuel + 1, i, delay, _lastError, calls, sleeps =>
    match fn i with
    | .ok t => ⟨.ok t, calls + 1, sleeps⟩
    | .error e =>
      if isQuotaError1 e && decide (i = maxRetries - 1) then
        ⟨.error (.quotaExceeded quotaMsg1), calls + 1, sleeps⟩
      else if (isQuotaError1 e || isOverloaded1 e) && decide (i < maxRetries - 1) then
        withRetry1Go fn maxRetries fuel (i + 1) (delay * 2) (some e) (calls + 1)
          (sleeps ++ [delay])
      else
        ⟨.error (.genericError (finalMessage1 (some e))), calls + 1, sleeps⟩

/-- Variant 1 of `withRetry` (`src/services/geminiService.ts` lines 28-70):
initial delay 3000ms, default `maxRetries = 4`. -/
def withRetry1 {T : Type} (fn : Nat → Except JsError T) (maxRetries : Nat := 4) : RunResult T :=
  withRetry1Go fn maxRetries maxRetries 0 3000 none 0 []

/-- Loop body of variant 2's `withRetry` (lines 279-318). -/
def withRetry2Go {T : Type} (fn : Nat → Except JsError T) (maxRetries : Nat) :
    Nat → Nat → Nat → Nat → List Nat → RunResult T
  | 0, _i, _delay, calls, sleeps =>
    ⟨.error (.genericError overloadedMsg2), calls, sleeps⟩
  | fuel + 1, i, delay, calls, sleeps =>
    match fn i with
    | .ok t => ⟨.ok t, calls + 1, sleeps⟩
    | .error e =>
      if isRetryable2 e && decide (i < maxRetries - 1) then
        withRetry2Go fn maxRetries fuel (i + 1) (delay * 2) (calls + 1) (sleeps ++ [delay])
      else if isRetryable2 e then
        ⟨.error (.genericError busyMsg2), calls + 1, sleeps⟩
      else
        ⟨.error (.raw e), calls + 1, sleeps⟩

/-- Variant 2 of `withRetry` (`src/services/geminiService.ts` lines 279-318):
initial delay 2000ms, default `maxRetries = 4`. -/
def withRetry2 {T : Type} (fn : Nat → Except JsError T) (maxRetries : Nat := 4) : RunResult T :=
  withRetry2Go fn maxRetries maxRetries 0 2000 0 []

/-- A thunk that fails with the listed errors in order and then succeeds with `t`. -/
def thunkOf {T : Type} (errs : List JsError) (t : T) : Nat → Except JsError T :=
  fun j => match errs.get? j with
    | some e => .error e
    | none => .ok t

/-- The deterministic exponential backoff trace: `k` delays starting at `d`,
doubling each time. -/
def geomDelays (d : Nat) : Nat → List Nat
  | 0 => []
  | k + 1 => d :: geomDelays (d * 2) k

/-! ## The content fingerprint (`hashString`, `src/unnamed/part_000` and
`part_001`, lines 21-28) -/

/-- Reduction of an integer to JavaScript 32-bit signed semantics (`| 0`). -/
def toInt32 (n : Int) : Int := (n + 2 ^ 31) % 2 ^ 32 - 2 ^ 31

/-- One step of the rolling hash: `hash = (hash << 5) - hash + code; hash |= 0`.
The shift truncates to 32 bits, and so does the final `|= 0`. -/
def hashStep (hash : Int) (code : Nat) : Int :=
  toInt32 (toInt32 (hash * 32) - hash + code)

/-- `hashString` from the two app variants: a 32-bit rolling hash over the
code units of the string, rendered in decimal (`hash.toString()`).
Characters are modelled by their code points, which agrees with
`charCodeAt` on the basic multilingual plane. -/
def hashString (str : String) : String :=
  toString (str.toList.foldl (fun h c => hashStep h c.toNat) 0)

/-! ## Injectivity of decimal rendering (`Nat.repr`), needed for ID uniqueness -/

/-- Decimal decoding of a digit string, the inverse of `Nat.toDigits 10`. -/
def decodeDigits (l : List Char) : Nat :=
  l.foldl (fun a c => 10 * a + (c.toNat - 48)) 0

/-! ## Normalization of `generateStudySet` responses -/

/-- The template-literal item id: `` `pre${i}-${now}` `` where `pre` is one of
`"fc-"`, `"quiz-"`, `"test-"`, `"q-"` and `now` is `Date.now()`. -/
def mkId (pre : String) (i now : Nat) : String :=
  pre ++ Nat.repr i ++ "-" ++ Nat.repr now

/-- `Flashcard` from `src/types.ts`. -/
structure Flashcard where
  id : String
  question : String
  answer : String
deriving DecidableEq, Repr

/-- `QuizQuestion` from `src/types.ts` (variant 1 items). -/
structure QuizQuestion where
  id : String
  question : String
  options : List String
  correctAnswer : String
  explanation : String
  category : String
deriving DecidableEq, Repr

/-- `MindmapNode` from `src/types.ts`. -/
inductive MindmapNode where
  | node (label : String) (content : Option String) (children : List MindmapNode)

/-- `StudySet` from `src/types.ts` (variant 1: flashcards, quiz, test, mindmap). -/
structure StudySet where
  flashcards : List Flashcard
  quiz : List QuizQuestion
  test : List QuizQuestion
  mindmap : MindmapNode

/-- Variant 2 quiz items carry only the fields of its response schema plus the
assigned id. -/
structure QuizQuestion2 where
  id : String
  question : String
  options : List String
  correctAnswer : String
deriving DecidableEq, Repr

/-- The local `StudySet` interface of `src/services/geminiService.ts` variant 2:
flashcards, quiz, mindmap — no test field. -/
structure StudySet2 where
  flashcards : List Flashcard
  quiz : List QuizQuestion2
  mindmap : MindmapNode

/-- Reading the `test` property of a variant-2 study set: the object literal
built at lines 423-427 has no `test` key, so the access yields `undefined`. -/
def StudySet2.testProp (_s : StudySet2) : Option (List QuizQuestion2) := none

/-- A backend flashcard as parsed from the response JSON: `id` is optional
(and untrusted) since the schema does not request one. -/
structure RawCard where
  id : Option String
  question : String
  answer : String

/-- A backend quiz/test item of variant 1's response schema. -/
structure RawQuiz where
  id : Option String
  question : String
  options : List String
  correctAnswer : String
  explanation : String
  category : String

/-- A backend quiz item of variant 2's response schema. -/
structure RawQuiz2 where
  id : Option String
  question : String
  options : List String
  correctAnswer : String

/-- The parsed response JSON of variant 1 (`data` at line 183): every top-level
field may be absent. -/
structure RawData1 where
  flashcards : Option (List RawCard)
  quiz : Option (List RawQuiz)
  test : Option (List RawQuiz)
  mindmap : Option MindmapNode

/-- The parsed response JSON of variant 2 (`data` at line 421). -/
structure RawData2 where
  flashcards : Option (List RawCard)
  quiz : Option (List RawQuiz2)
  mindmap : Option MindmapNode

/-- `list.map((x, i) => f(`pre${i}-${now}`, x))`: index-aware map assigning
fresh ids, starting at index `i`. -/
def withIds {α β : Type} (f : String → α → β) (pre : String) (now : Nat) :
    Nat → List α → List β
  | _, [] => []
  | i, a :: rest => f (mkId pre i now) a :: withIds f pre now (i + 1) rest

/-- The default mindmap: `{ label: "Main Topic", content: "Main topic summary", children: [] }`. -/
def defaultMindmap : MindmapNode :=
  .node "Main Topic" (some "Main topic summary") []

/-- The normalization step of variant 1's `generateStudySet`
(`src/services/geminiService.ts` lines 185-190): spread each backend item,
override its `id` with a position/time-based one, default absent lists to `[]`
and an absent mindmap to the `"Main Topic"` root. -/
def normalizeStudySet1 (data : RawData1) (now : Nat) : StudySet where
  flashcards := withIds (fun s c => ⟨s, c.question, c.answer⟩) "fc-" now 0 (data.flashcards.getD [])
  quiz := withIds (fun s q => ⟨s, q.question, q.options, q.correctAnswer, q.explanation, q.category⟩)
    "quiz-" now 0 (data.quiz.getD [])
  test := withIds (fun s q => ⟨s, q.question, q.options, q.correctAnswer, q.explanation, q.category⟩)
    "test-" now 0 (data.test.getD [])
  mindmap := data.mindmap.getD defaultMindmap

/-- The normalization step of variant 2's `generateStudySet` (lines 423-427). -/
def normalizeStudySet2 (data : RawData2) (now : Nat) : StudySet2 where
  flashcards := withIds (fun s c => ⟨s, c.question, c.answer⟩) "fc-" now 0 (data.flashcards.getD [])
  quiz := withIds (fun s q => ⟨s, q.question, q.options, q.correctAnswer⟩)
    "q-" now 0 (data.quiz.getD [])
  mindmap := data.mindmap.getD defaultMindmap

/-! ## The tiered result cache (`handleGenerate`) -/

/-- The `selectedDoc` state: base64 data, mime type and file name. -/
structure SelectedDoc where
  data : String
  mimeType : String
  name : String
deriving DecidableEq, Repr

/-- The `JSON.parse` outcome of a string stored in `localStorage`:
`emptyStr` for the (falsy) empty string, `corrupt` for a non-empty string on
which `JSON.parse` throws, `valid s` for the serialization of `s`
(JSON round-trip on these plain data objects is the identity). -/
inductive StoredEntry (σ : Type) where
  | emptyStr
  | corrupt
  | valid (s : σ)

/-- `localStorage`, restricted to the study-set cache: a map from keys to
stored entries; `none` models an absent key (`getItem` returns `null`). -/
def Store (σ : Type) := String → Option (StoredEntry σ)

/-- `localStorage.setItem`. -/
def Store.set {σ : Type} (st : Store σ) (k : String) (v : StoredEntry σ) : Store σ :=
  fun q => if q = k then some v else st q

/-- The observable outcome of one `handleGenerate` invocation:
`noop` for the early return on empty input, `viewer s` when the UI is filled
from study set `s` and the view switches to the viewer, `errorState e` when
the catch block records error `e` (`setGenerationErrorMessage`/`ERROR` status),
`thrownParse` when `JSON.parse` of a corrupt cache entry throws outside the
try block and the exception escapes `handleGenerate` uncaught. -/
inductive GenOutcome (σ : Type) where
  | noop
  | viewer (s : σ)
  | errorState (e : JsError)
  | thrownParse

/-- Result of one `handleGenerate` invocation: outcome, the cache store after
the call, and how many times `generateStudySet` was invoked. -/
structure GenState (σ : Type) where
  outcome : GenOutcome σ
  store : Store σ
  genCalls : Nat

/-- ```studywise_free_cache_${hashString(input + (selectedDoc?.name || ""))}``` -/
def cacheKey (input : String) (doc : Option SelectedDoc) : String :=
  "studywise_free_cache_" ++ hashString (input ++ strOr (doc.map (·.name)) "")

/-- The try/catch block of `handleGenerate` (reached only when the free-tier
cache lookup did not hit): await `generateStudySet` (one backend generation);
on success write the cache when the user is not pro and show the viewer; on
failure the catch block records the error unchanged. -/
def generatePhase (σ : Type) (tier : Option String) (gen : Except JsError σ)
    (key : String) (store : Store σ) : GenState σ :=
  match gen with
  | .error e => ⟨.errorState e, store, 1⟩
  | .ok s =>
    if tier ≠ some "pro" then ⟨.viewer s, store.set key (.valid s), 1⟩
    else ⟨.viewer s, store, 1⟩

/-- `handleGenerate` (`src/unnamed/part_000` lines 397-447 and
`src/unnamed/part_001` lines 452-515; the two sites differ only in which UI
fields they fill from the study set, which the `viewer` outcome subsumes).
`tier` is `user?.tier`; `gen` is the outcome `generateStudySet` would produce
if invoked (it performs at most one logical backend generation per call).
Note the cache-hit `JSON.parse` sits before the try block: a corrupt entry
makes it throw out of `handleGenerate` (`thrownParse`), while an empty-string
entry is falsy under `if (cachedSet)` and falls through to generation. -/
def handleGenerate (σ : Type) (input : String) (doc : Option SelectedDoc)
    (tier : Option String) (gen : Except JsError σ) (store : Store σ) : GenState σ :=
  if jsTrim input = "" ∧ doc = none then ⟨.noop, store, 0⟩
  else
    let key := cacheKey input doc
    if tier ≠ some "pro" then
      match store key with
      | some .corrupt => ⟨.thrownParse, store, 0⟩
      | some (.valid parsed) => ⟨.viewer parsed, store, 0⟩
      | some .emptyStr => generatePhase σ tier gen key store
      | none => generatePhase σ tier gen key store
    else generatePhase σ tier gen key store

/-! ## Concrete errors used by witnesses and counterexamples -/

/-- A rate-limit flavoured error: its message contains `429`. -/
def quotaErr429 : JsError := .obj ⟨some "429 Too Many Requests", none, none⟩ none

/-- An overload flavoured error: its message contains `503`. -/
def overloadedErr503 : JsError := .obj ⟨some "503 Service Unavailable", none, none⟩ none

/-- A fatal error: no retry marker in message, status or code. -/
def fatalErrBoom : JsError := .obj ⟨some "boom", some (.str "TEAPOT"), none⟩ none

/-- The ID discipline of a normalized item list: the ids are exactly the
position/time-template strings (hence assigned at normalization and not taken
from the backend), every id is non-empty, and ids are unique within the list. -/
def IdsSpec (pre : String) (now : Nat) (ids : List String) (n : Nat) : Prop :=
  ids = (List.range n).map (fun j => mkId pre j now) ∧
  (∀ s ∈ ids, s ≠ "") ∧ ids.Nodup

/-! ## Properties of decimal rendering and ids -/

theorem toDigitsCore_append (b : Nat) :
    ∀ (fuel n : Nat) (ds : List Char),
      Nat.toDigitsCore b fuel n ds = Nat.toDigitsCore b fuel n [] ++ ds := by
  intro fuel
  induction fuel with
  | zero => intro n ds; simp [Nat.toDigitsCore]
  | succ fuel ih =>
    intro n ds
    simp only [Nat.toDigitsCore]
    by_cases h : n / b = 0
    · simp [h]
    · simp only [h, if_false]
      rw [ih (n / b) [Nat.digitChar (n % b)], ih (n / b) (Nat.digitChar (n % b) :: ds),
        List.append_assoc]
      simp

theorem toDigitsCore_fuel (b : Nat) (hb : 2 ≤ b) :
    ∀ (n f1 f2 : Nat), n < f1 → n < f2 →
      Nat.toDigitsCore b f1 n [] = Nat.toDigitsCore b f2 n [] := by
  intro n
  induction n using Nat.strong_induction_on with
  | _ n ih =>
    intro f1 f2 h1 h2
    obtain ⟨a, rfl⟩ : ∃ a, f1 = a + 1 := ⟨f1 - 1, by omega⟩
    obtain ⟨c, rfl⟩ : ∃ c, f2 = c + 1 := ⟨f2 - 1, by omega⟩
    simp only [Nat.toDigitsCore]
    by_cases h : n / b = 0
    · simp [h]
    · simp only [h, if_false]
      have hn : 0 < n := by
        rcases Nat.eq_zero_or_pos n with h0 | h0
        · subst h0; simp [Nat.zero_div] at h
        · exact h0
      have hdiv : n / b < n := Nat.div_lt_self hn (by omega)
      rw [toDigitsCore_append b a (n / b), toDigitsCore_append b c (n / b),
        ih (n / b) hdiv a c (by omega) (by omega)]

theorem digitChar_toNat (d : Nat) (h : d < 10) : (Nat.digitChar d).toNat - 48 = d := by
  interval_cases d <;> rfl

theorem decodeDigits_append_singleton (l : List Char) (c : Char) :
    decodeDigits (l ++ [c]) = 10 * decodeDigits l + (c.toNat - 48) := by
  simp [decodeDigits, List.foldl_append]

theorem decodeDigits_toDigits (n : Nat) : decodeDigits (Nat.toDigits 10 n) = n := by
  induction n using Nat.strong_induction_on with
  | _ n ih =>
    simp only [Nat.toDigits, Nat.toDigitsCore]
    by_cases h : n / 10 = 0
    · simp only [h, if_false, if_true]
      have hn : n < 10 := by omega
      simp [decodeDigits, digitChar_toNat (n % 10) (by omega)]
      omega
    · simp only [h, if_false]
      have hdiv : n / 10 < n := Nat.div_lt_self (by omega) (by omega)
      rw [toDigitsCore_append 10 n (n / 10),
        toDigitsCore_fuel 10 (by omega) (n / 10) n (n / 10 + 1) (by omega) (by omega),
        decodeDigits_append_singleton]
      have := ih (n / 10) hdiv
      simp only [Nat.toDigits] at this
      rw [this, digitChar_toNat (n % 10) (by omega)]
      omega

theorem natRepr_injective : Function.Injective Nat.repr := by
  intro m n h
  have hdata : (Nat.toDigits 10 m) = (Nat.toDigits 10 n) := by
    have := congrArg String.data h
    simpa [Nat.repr, List.asString] using this
  have := congrArg decodeDigits hdata
  simpa [decodeDigits_toDigits] using this

theorem mkId_inj (pre : String) (now : Nat) {i j : Nat}
    (h : mkId pre i now = mkId pre j now) : i = j := by
  have hd := congrArg String.data h
  simp only [mkId, String.data_append, List.append_assoc] at hd
  have h1 := List.append_cancel_left hd
  have h2 := List.append_cancel_right h1
  exact natRepr_injective (String.ext h2)

theorem mkId_ne_empty (pre : String) (i now : Nat) : mkId pre i now ≠ "" := by
  intro h
  have hlen := congrArg String.length h
  simp only [mkId, String.length_append] at hlen
  have h1 : ("-" : String).length = 1 := rfl
  have h2 : ("" : String).length = 0 := rfl
  omega

/-! ## Helper lemmas about the retry loops -/

theorem geomDelays_length (d k : Nat) : (geomDelays d k).length = k := by
  induction k generalizing d with
  | zero => rfl
  | succ k ih => simp [geomDelays, ih]

theorem geomDelays_getD (d : Nat) :
    ∀ (k j : Nat), j < k → (geomDelays d k).getD j 0 = d * 2 ^ j := by
  intro k
  induction k generalizing d with
  | zero => intro j hj; omega
  | succ k ih =>
    intro j hj
    cases j with
    | zero => simp [geomDelays]
    | succ j =>
      have := ih (d * 2) j (by omega)
      simp only [geomDelays, List.getD_cons_succ]
      rw [this, Nat.pow_succ]
      ring

/-- The `lastError` accumulator of variant 1's loop is only read when the loop
runs out of iterations, which cannot happen once the loop has been entered:
with `i + fuel = maxRetries` and positive fuel, the result does not depend on it. -/
theorem withRetry1Go_lastError_irrel {T : Type} (fn : Nat → Except JsError T) (m : Nat) :
    ∀ (fuel i delay : Nat) (le le' : Option JsError) (calls : Nat) (sleeps : List Nat),
      i + fuel = m → 0 < fuel →
      withRetry1Go fn m fuel i delay le calls sleeps =
        withRetry1Go fn m fuel i delay le' calls sleeps := by
  intro fuel
  cases fuel with
  | zero => intro i delay le le' calls sleeps _ h0; omega
  | succ fuel =>
    intro i delay le le' calls sleeps _ _
    simp only [withRetry1Go]

/-- Running variant 1's loop through a block of retryable failures: each one
consumes an attempt, sleeps the current delay, and doubles it. -/
theorem withRetry1Go_steps {T : Type} (fn : Nat → Except JsError T) (m : Nat) :
    ∀ (errs : List JsError) (i delay : Nat) (le : Option JsError) (calls : Nat) (sleeps : List Nat),
      i + errs.length < m →
      (∀ j (hj : j < errs.length), fn (i + j) = .error (errs.get ⟨j, hj⟩)) →
      (∀ e ∈ errs, (isQuotaError1 e || isOverloaded1 e) = true) →
      withRetry1Go fn m (m - i) i delay le calls sleeps =
        withRetry1Go fn m (m - (i + errs.length)) (i + errs.length) (delay * 2 ^ errs.length)
          le (calls + errs.length) (sleeps ++ geomDelays delay errs.length) := by
  intro errs
  induction errs with
  | nil =>
    intro i delay le calls sleeps _ _ _
    simp [geomDelays]
  | cons e rest ih =>
    intro i delay le calls sleeps hlt hfn hclass
    have hi : i < m - 1 := by simp at hlt; omega
    have h1 : m - i = (m - (i + 1)) + 1 := by omega
    rw [h1]
    simp only [withRetry1Go]
    have hfn0 : fn i = .error e := by
      have := hfn 0 (by simp)
      simpa using this
    rw [hfn0]
    have hquota : (isQuotaError1 e && decide (i = m - 1)) = false := by
      have : decide (i = m - 1) = false := decide_eq_false (by omega)
      simp [this]
    have hretry : ((isQuotaError1 e || isOverloaded1 e) && decide (i < m - 1)) = true := by
      have hc := hclass e (by simp)
      have : decide (i < m - 1) = true := decide_eq_true hi
      simp [hc, this]
    simp only [hquota, hretry, if_true, Bool.false_eq_true, if_false]
    have hswap := withRetry1Go_lastError_irrel fn m (m - (i + 1)) (i + 1) (delay * 2)
      (some e) le (calls + 1) (sleeps ++ [delay]) (by omega) (by omega)
    rw [hswap]
    have hrec := ih (i + 1) (delay * 2) le (calls + 1) (sleeps ++ [delay])
      (by simp at hlt ⊢; omega)
      (fun j hj => by
        have := hfn (j + 1) (by simp; omega)
        simpa [Nat.add_comm, Nat.add_assoc, Nat.add_left_comm] using this)
      (fun x hx => hclass x (by simp [hx]))
    rw [hrec]
    have e1 : i + 1 + rest.length = i + (rest.length + 1) := by omega
    have e2 : delay * 2 * 2 ^ rest.length = delay * 2 ^ (rest.length + 1) := by
      rw [Nat.pow_succ]; ring
    have e3 : calls + 1 + rest.length = calls + (rest.length + 1) := by omega
    have e4 : (sleeps ++ [delay]) ++ geomDelays (delay * 2) rest.length =
        sleeps ++ geomDelays delay (rest.length + 1) := by
      simp [geomDelays]
    rw [e1, e2, e3, e4]
    simp

/-- Running variant 2's loop through a block of retryable failures. -/
theorem withRetry2Go_steps {T : Type} (fn : Nat → Except JsError T) (m : Nat) :
    ∀ (errs : List JsError) (i delay calls : Nat) (sleeps : List Nat),
      i + errs.length < m →
      (∀ j (hj : j < errs.length), fn (i + j) = .error (errs.get ⟨j, hj⟩)) →
      (∀ e ∈ errs, isRetryable2 e = true) →
      withRetry2Go fn m (m - i) i delay calls sleeps =
        withRetry2Go fn m (m - (i + errs.length)) (i + errs.length) (delay * 2 ^ errs.length)
          (calls + errs.length) (sleeps ++ geomDelays delay errs.length) := by
  intro errs
  induction errs with
  | nil =>
    intro i delay calls sleeps _ _ _
    simp [geomDelays]
  | cons e rest ih =>
    intro i delay calls sleeps hlt hfn hclass
    have hi : i < m - 1 := by simp at hlt; omega
    have h1 : m - i = (m - (i + 1)) + 1 := by omega
    rw [h1]
    simp only [withRetry2Go]
    have hfn0 : fn i = .error e := by
      have := hfn 0 (by simp)
      simpa using this
    rw [hfn0]
    have hretry : (isRetryable2 e && decide (i < m - 1)) = true := by
      have hc := hclass e (by simp)
      have : decide (i < m - 1) = true := decide_eq_true hi
      simp [hc, this]
    simp only [hretry, if_true]
    have hrec := ih (i + 1) (delay * 2) (calls + 1) (sleeps ++ [delay])
      (by simp at hlt ⊢; omega)
      (fun j hj => by
        have := hfn (j + 1) (by simp; omega)
        simpa [Nat.add_comm, Nat.add_assoc, Nat.add_left_comm] using this)
      (fun x hx => hclass x (by simp [hx]))
    rw [hrec]
    have e1 : i + 1 + rest.length = i + (rest.length + 1) := by omega
    have e2 : delay * 2 * 2 ^ rest.length = delay * 2 ^ (rest.length + 1) := by
      rw [Nat.pow_succ]; ring
    have e3 : calls + 1 + rest.length = calls + (rest.length + 1) := by omega
    have e4 : (sleeps ++ [delay]) ++ geomDelays (delay * 2) rest.length =
        sleeps ++ geomDelays delay (rest.length + 1) := by
      simp [geomDelays]
    rw [e1, e2, e3, e4]
    simp

theorem thunkOf_lt {T : Type} (errs : List JsError) (t : T) (j : Nat) (hj : j < errs.length) :
    thunkOf errs t j = .error (errs.get ⟨j, hj⟩) := by
  simp only [thunkOf, List.get?_eq_getElem?]
  rw [List.getElem?_eq_getElem hj]
  rfl

theorem thunkOf_ge {T : Type} (errs : List JsError) (t : T) (j : Nat) (hj : errs.length ≤ j) :
    thunkOf errs t j = .ok t := by
  simp only [thunkOf, List.get?_eq_getElem?]
  rw [List.getElem?_eq_none hj]

/-- Summary of a variant-1 run on a retryable-failure block followed by success. -/
theorem withRetry1_run {T : Type} (t : T) (errs : List JsError) (m : Nat)
    (hm : errs.length < m)
    (hc : ∀ e ∈ errs, (isQuotaError1 e || isOverloaded1 e) = true) :
    withRetry1 (thunkOf errs t) m =
      ⟨.ok t, errs.length + 1, geomDelays 3000 errs.length⟩ := by
  have hsteps := withRetry1Go_steps (thunkOf errs t) m errs 0 3000 none 0 []
    (by omega) (fun j hj => by simpa using thunkOf_lt errs t j hj) hc
  simp only [Nat.sub_zero, Nat.zero_add, List.nil_append] at hsteps
  unfold withRetry1
  rw [hsteps]
  obtain ⟨f, hf⟩ : ∃ f, m - errs.length = f + 1 := ⟨m - errs.length - 1, by omega⟩
  rw [hf]
  simp only [withRetry1Go]
  rw [thunkOf_ge errs t errs.length (Nat.le_refl _)]

/-- Summary of a variant-2 run on a retryable-failure block followed by success. -/
theorem withRetry2_run {T : Type} (t : T) (errs : List JsError) (m : Nat)
    (hm : errs.length < m)
    (hc : ∀ e ∈ errs, isRetryable2 e = true) :
    withRetry2 (thunkOf errs t) m =
      ⟨.ok t, errs.length + 1, geomDelays 2000 errs.length⟩ := by
  have hsteps := withRetry2Go_steps (thunkOf errs t) m errs 0 2000 0 []
    (by omega) (fun j hj => by simpa using thunkOf_lt errs t j hj) hc
  simp only [Nat.sub_zero, Nat.zero_add, List.nil_append] at hsteps
  unfold withRetry2
  rw [hsteps]
  obtain ⟨f, hf⟩ : ∃ f, m - errs.length = f + 1 := ⟨m - errs.length - 1, by omega⟩
  rw [hf]
  simp only [withRetry2Go]
  rw [thunkOf_ge errs t errs.length (Nat.le_refl _)]

/-! ## Claim C3 — retry bound -/

/-- **C3**: for every sequence of `RateLimited`/`Overloaded`-classified thunk
failures strictly shorter than the maximum attempt bound, followed by one
success, `withRetry` (both variants) returns the success value and the wrapped
thunk is called exactly `(number of failures) + 1` times. -/
theorem claim_C3_retry_bound {T : Type} (t : T) (errs : List JsError) (m : Nat)
    (hm : errs.length < m) :
    ((∀ e ∈ errs, (isQuotaError1 e || isOverloaded1 e) = true) →
      (withRetry1 (thunkOf errs t) m).result = .ok t ∧
      (withRetry1 (thunkOf errs t) m).calls = errs.length + 1) ∧
    ((∀ e ∈ errs, isRetryable2 e = true) →
      (withRetry2 (thunkOf errs t) m).result = .ok t ∧
      (withRetry2 (thunkOf errs t) m).calls = errs.length + 1) := by
  constructor
  · intro hc
    rw [withRetry1_run t errs m hm hc]
    exact ⟨rfl, rfl⟩
  · intro hc
    rw [withRetry2_run t errs m hm hc]
    exact ⟨rfl, rfl⟩

/-- Witness for C3: two retryable failures then success, under the default
budget of 4 attempts, yield the success value after exactly 3 calls. -/
theorem claim_C3_retry_bound_witness :
    (withRetry1 (thunkOf [quotaErr429, overloadedErr503] (0 : Nat)) 4).result = .ok 0 ∧
    (withRetry1 (thunkOf [quotaErr429, overloadedErr503] (0 : Nat)) 4).calls = 3 ∧
    (withRetry2 (thunkOf [quotaErr429, overloadedErr503] (0 : Nat)) 4).result = .ok 0 ∧
    (withRetry2 (thunkOf [quotaErr429, overloadedErr503] (0 : Nat)) 4).calls = 3 := by
  have h := claim_C3_retry_bound (0 : Nat) [quotaErr429, overloadedErr503] 4 (by decide)
  have a := h.1 (by decide)
  have b := h.2 (by decide)
  exact ⟨a.1, a.2, b.1, b.2⟩

/-! ## Claim C4 — fatal short-circuit (corrected) -/

/-- Counterexample to C4 as stated: variant 1 does **not** rethrow a
`Fatal`-classified error; it throws a fresh generic `Error` built from the
original's message, losing the original error value (here its `status` field). -/
theorem claim_C4_counterexample :
    (withRetry1 (fun _ => (.error fatalErrBoom : Except JsError Unit)) 4).result =
      .error (.genericError "boom") ∧
    (withRetry1 (fun _ => (.error fatalErrBoom : Except JsError Unit)) 4).result ≠
      .error (.raw fatalErrBoom) := by
  have h1 : (withRetry1 (fun _ => (.error fatalErrBoom : Except JsError Unit)) 4).result =
      .error (.genericError "boom") := rfl
  refine ⟨h1, ?_⟩
  rw [h1]
  intro h
  simp at h

/-- **C4 (amended)**: for every error classified `Fatal` (neither `RateLimited`
nor `Overloaded`), both `withRetry` variants call the thunk exactly once and
fail immediately without sleeping, regardless of remaining budget; variant 2
rethrows the original error, while variant 1 throws a new generic `Error`
carrying the original's message (or a default when absent). -/
theorem claim_C4_fatal_short_circuit {T : Type} (fn : Nat → Except JsError T)
    (e : JsError) (m : Nat) (hm : 1 ≤ m) (hfn : fn 0 = .error e) :
    (isQuotaError1 e = false → isOverloaded1 e = false →
      withRetry1 fn m = ⟨.error (.genericError (finalMessage1 (some e))), 1, []⟩) ∧
    (isRetryable2 e = false →
      withRetry2 fn m = ⟨.error (.raw e), 1, []⟩) := by
  obtain ⟨f, hf⟩ : ∃ f, m = f + 1 := ⟨m - 1, by omega⟩
  subst hf
  constructor
  · intro h1 h2
    unfold withRetry1
    simp only [withRetry1Go]
    rw [hfn]
    simp [h1, h2]
  · intro h1
    unfold withRetry2
    simp only [withRetry2Go]
    rw [hfn]
    simp [h1]

/-- Witness for the amended C4, at a concrete fatal error and budget 4. -/
theorem claim_C4_fatal_short_circuit_witness :
    (withRetry1 (fun _ => (.error fatalErrBoom : Except JsError Nat)) 4) =
      ⟨.error (.genericError "boom"), 1, []⟩ ∧
    (withRetry2 (fun _ => (.error fatalErrBoom : Except JsError Nat)) 4) =
      ⟨.error (.raw fatalErrBoom), 1, []⟩ := by
  have h := claim_C4_fatal_short_circuit (fun _ => (.error fatalErrBoom : Except JsError Nat))
    fatalErrBoom 4 (by decide) rfl
  exact ⟨h.1 (by decide) (by decide), h.2 (by decide)⟩

/-! ## Claim C5 — exhaustion surfacing (corrected) -/

/-- Exhaustion of variant 1: `pre.length` retryable failures fill all but the
last attempt, and the last attempt fails with `elast`. On the last attempt a
`RateLimited` classification raises `QuotaExceededError`; anything else
reaches the after-loop generic `Error`. -/
theorem withRetry1_exhaust {T : Type} (fn : Nat → Except JsError T)
    (pre : List JsError) (elast : JsError) (m : Nat)
    (hm : m = pre.length + 1)
    (hpre : ∀ j (hj : j < pre.length), fn j = .error (pre.get ⟨j, hj⟩))
    (hlast : fn pre.length = .error elast)
    (hc : ∀ e ∈ pre, (isQuotaError1 e || isOverloaded1 e) = true) :
    withRetry1 fn m =
      if isQuotaError1 elast then
        ⟨.error (.quotaExceeded quotaMsg1), m, geomDelays 3000 pre.length⟩
      else
        ⟨.error (.genericError (finalMessage1 (some elast))), m, geomDelays 3000 pre.length⟩ := by
  subst hm
  have hsteps := withRetry1Go_steps fn (pre.length + 1) pre 0 3000 none 0 []
    (by omega) (fun j hj => by simpa using hpre j hj) hc
  simp only [Nat.sub_zero, Nat.zero_add, List.nil_append] at hsteps
  unfold withRetry1
  rw [hsteps]
  have hf : pre.length + 1 - pre.length = 1 := by omega
  rw [hf]
  simp only [withRetry1Go]
  rw [hlast]
  have hdec : decide (pre.length = pre.length + 1 - 1) = true := by
    apply decide_eq_true; omega
  have hdec2 : decide (pre.length < pre.length + 1 - 1) = false := by
    apply decide_eq_false; omega
  cases hq : isQuotaError1 elast with
  | true => simp [hq, hdec]
  | false => simp [hq, hdec, hdec2]

/-- Exhaustion of variant 2: all attempts fail retryable (`RateLimited` or
`Overloaded` alike); the last attempt raises the fixed generic busy `Error`. -/
theorem withRetry2_exhaust {T : Type} (fn : Nat → Except JsError T)
    (pre : List JsError) (elast : JsError) (m : Nat)
    (hm : m = pre.length + 1)
    (hpre : ∀ j (hj : j < pre.length), fn j = .error (pre.get ⟨j, hj⟩))
    (hlast : fn pre.length = .error elast)
    (hc : ∀ e ∈ pre, isRetryable2 e = true)
    (hlc : isRetryable2 elast = true) :
    withRetry2 fn m = ⟨.error (.genericError busyMsg2), m, geomDelays 2000 pre.length⟩ := by
  subst hm
  have hsteps := withRetry2Go_steps fn (pre.length + 1) pre 0 2000 0 []
    (by omega) (fun j hj => by simpa using hpre j hj) hc
  simp only [Nat.sub_zero, Nat.zero_add, List.nil_append] at hsteps
  unfold withRetry2
  rw [hsteps]
  have hf : pre.length + 1 - pre.length = 1 := by omega
  rw [hf]
  simp only [withRetry2Go]
  rw [hlast]
  have hdec2 : decide (pre.length < pre.length + 1 - 1) = false := by
    apply decide_eq_false; omega
  simp [hlc, hdec2]

/-- Counterexample to C5 as stated: in variant 2, exhausting the budget on a
`RateLimited`-flavoured failure raises the same plain generic `Error` as
exhausting it on an `Overloaded`-flavoured failure — no distinguished
rate-limit error type is raised. -/
theorem claim_C5_counterexample :
    (withRetry2 (fun _ => (.error quotaErr429 : Except JsError Unit)) 4).result =
      .error (.genericError busyMsg2) ∧
    (withRetry2 (fun _ => (.error overloadedErr503 : Except JsError Unit)) 4).result =
      .error (.genericError busyMsg2) := by
  exact ⟨rfl, rfl⟩

/-- **C5 (amended)**: when the retry budget is exhausted, variant 1 raises the
distinguished `QuotaExceededError` (with its user-facing message) if the last
failure was classified `RateLimited`, and degrades to a generic `Error`
otherwise (in particular on `Overloaded`); variant 2 raises one and the same
generic busy `Error` for every retryable exhaustion, rate-limited or
overloaded alike. -/
theorem claim_C5_exhaustion_surfacing {T : Type} (fn : Nat → Except JsError T)
    (pre : List JsError) (elast : JsError) (m : Nat)
    (hm : m = pre.length + 1)
    (hpre : ∀ j (hj : j < pre.length), fn j = .error (pre.get ⟨j, hj⟩))
    (hlast : fn pre.length = .error elast) :
    ((∀ e ∈ pre, (isQuotaError1 e || isOverloaded1 e) = true) →
      (isQuotaError1 elast = true →
        withRetry1 fn m =
          ⟨.error (.quotaExceeded quotaMsg1), m, geomDelays 3000 pre.length⟩) ∧
      (isQuotaError1 elast = false →
        withRetry1 fn m =
          ⟨.error (.genericError (finalMessage1 (some elast))), m, geomDelays 3000 pre.length⟩)) ∧
    ((∀ e ∈ pre, isRetryable2 e = true) → isRetryable2 elast = true →
      withRetry2 fn m = ⟨.error (.genericError busyMsg2), m, geomDelays 2000 pre.length⟩) := by
  refine ⟨fun hc => ⟨fun hq => ?_, fun hq => ?_⟩, fun hc hlc => ?_⟩
  · rw [withRetry1_exhaust fn pre elast m hm hpre hlast hc, hq]
    simp
  · rw [withRetry1_exhaust fn pre elast m hm hpre hlast hc, hq]
    simp
  · exact withRetry2_exhaust fn pre elast m hm hpre hlast hc hlc

/-- Witness for the amended C5: one rate-limited failure, then rate-limited
exhaustion on the final attempt, budget 2. -/
theorem claim_C5_exhaustion_surfacing_witness :
    withRetry1 (thunkOf [quotaErr429, quotaErr429] (0 : Nat)) 2 =
      ⟨.error (.quotaExceeded quotaMsg1), 2, [3000]⟩ ∧
    withRetry2 (thunkOf [quotaErr429, quotaErr429] (0 : Nat)) 2 =
      ⟨.error (.genericError busyMsg2), 2, [2000]⟩ := by
  have h := claim_C5_exhaustion_surfacing (thunkOf [quotaErr429, quotaErr429] (0 : Nat))
    [quotaErr429] quotaErr429 2 rfl
    (fun j hj => by
      have hj0 : j = 0 := by simp at hj; omega
      subst hj0; rfl)
    rfl
  exact ⟨(h.1 (by decide)).1 (by decide), h.2 (by decide) (by decide)⟩

/-! ## Claim C8 — backoff shape (corrected) -/

/-- The geometric delay trace is monotone, doubles at each step, and starts at
the base delay — with no jitter: its entries are exactly `d * 2 ^ j`. -/
theorem geomDelays_spec (d k : Nat) :
    (∀ j, j + 1 < k →
      (geomDelays d k).getD j 0 ≤ (geomDelays d k).getD (j + 1) 0 ∧
      (geomDelays d k).getD (j + 1) 0 = 2 * (geomDelays d k).getD j 0) ∧
    (0 < k → (geomDelays d k).getD 0 0 = d) := by
  constructor
  · intro j hj
    have h1 := geomDelays_getD d k j (by omega)
    have h2 := geomDelays_getD d k (j + 1) hj
    have heq : (geomDelays d k).getD (j + 1) 0 = 2 * (geomDelays d k).getD j 0 := by
      rw [h1, h2, pow_succ]; ring
    exact ⟨by rw [heq]; omega, heq⟩
  · intro hk
    have := geomDelays_getD d k 0 hk
    simpa using this

/-- Counterexample to C8 as stated: the delays are exactly the base
exponential sequence — for a concrete run the first delay equals the initial
delay 3000 exactly, so no positive jitter component is ever added. -/
theorem claim_C8_counterexample :
    (withRetry1 (thunkOf [quotaErr429, quotaErr429] (0 : Nat)) 4).sleeps = [3000, 6000] ∧
    ¬ 3000 < (withRetry1 (thunkOf [quotaErr429, quotaErr429] (0 : Nat)) 4).sleeps.getD 0 0 := by
  have h : (withRetry1 (thunkOf [quotaErr429, quotaErr429] (0 : Nat)) 4).sleeps =
      [3000, 6000] := rfl
  exact ⟨h, by rw [h]; decide⟩

/-- **C8 (amended)**: for every retried failure sequence within the budget,
the backoff delays are exactly the deterministic doubling sequence from the
implementation-chosen initial delay (3000ms in variant 1, 2000ms in
variant 2): each delay is at most the next, each delay doubles, the first
equals the initial delay, and no jitter is added. -/
theorem claim_C8_backoff_monotone {T : Type} (t : T) (errs : List JsError) (m : Nat)
    (hm : errs.length < m) :
    ((∀ e ∈ errs, (isQuotaError1 e || isOverloaded1 e) = true) →
      (withRetry1 (thunkOf errs t) m).sleeps = geomDelays 3000 errs.length ∧
      (∀ j, j + 1 < errs.length →
        (withRetry1 (thunkOf errs t) m).sleeps.getD j 0 ≤
          (withRetry1 (thunkOf errs t) m).sleeps.getD (j + 1) 0 ∧
        (withRetry1 (thunkOf errs t) m).sleeps.getD (j + 1) 0 =
          2 * (withRetry1 (thunkOf errs t) m).sleeps.getD j 0) ∧
      (0 < errs.length → (withRetry1 (thunkOf errs t) m).sleeps.getD 0 0 = 3000)) ∧
    ((∀ e ∈ errs, isRetryable2 e = true) →
      (withRetry2 (thunkOf errs t) m).sleeps = geomDelays 2000 errs.length ∧
      (∀ j, j + 1 < errs.length →
        (withRetry2 (thunkOf errs t) m).sleeps.getD j 0 ≤
          (withRetry2 (thunkOf errs t) m).sleeps.getD (j + 1) 0 ∧
        (withRetry2 (thunkOf errs t) m).sleeps.getD (j + 1) 0 =
          2 * (withRetry2 (thunkOf errs t) m).sleeps.getD j 0) ∧
      (0 < errs.length → (withRetry2 (thunkOf errs t) m).sleeps.getD 0 0 = 2000)) := by
  constructor
  · intro hc
    have hrun : (withRetry1 (thunkOf errs t) m).sleeps = geomDelays 3000 errs.length := by
      rw [withRetry1_run t errs m hm hc]
    have hspec := geomDelays_spec 3000 errs.length
    rw [hrun]
    exact ⟨rfl, hspec.1, hspec.2⟩
  · intro hc
    have hrun : (withRetry2 (thunkOf errs t) m).sleeps = geomDelays 2000 errs.length := by
      rw [withRetry2_run t errs m hm hc]
    have hspec := geomDelays_spec 2000 errs.length
    rw [hrun]
    exact ⟨rfl, hspec.1, hspec.2⟩

/-- Witness for the amended C8: two rate-limited failures then success under
budget 4 sleep exactly 3000ms then 6000ms (variant 1). -/
theorem claim_C8_backoff_monotone_witness :
    (withRetry1 (thunkOf [quotaErr429, quotaErr429] (0 : Nat)) 4).sleeps =
      geomDelays 3000 2 ∧
    (withRetry1 (thunkOf [quotaErr429, quotaErr429] (0 : Nat)) 4).sleeps.getD 0 0 = 3000 ∧
    (withRetry2 (thunkOf [quotaErr429, quotaErr429] (0 : Nat)) 4).sleeps =
      geomDelays 2000 2 := by
  have h := claim_C8_backoff_monotone (0 : Nat) [quotaErr429, quotaErr429] 4 (by decide)
  have a := h.1 (by decide)
  have b := h.2 (by decide)
  exact ⟨a.1, a.2.2 (by decide), b.1⟩

/-! ## Helper lemmas about `handleGenerate` -/

theorem Store.set_self {σ : Type} (st : Store σ) (k : String) (v : StoredEntry σ) :
    Store.set st k v k = some v := by
  simp [Store.set]

theorem generatePhase_error (σ : Type) (tier : Option String) (e : JsError)
    (key : String) (store : Store σ) :
    generatePhase σ tier (.error e) key store = ⟨.errorState e, store, 1⟩ := rfl

theorem generatePhase_ok_free (σ : Type) (tier : Option String) (s : σ)
    (key : String) (store : Store σ) (htier : tier ≠ some "pro") :
    generatePhase σ tier (.ok s) key store = ⟨.viewer s, store.set key (.valid s), 1⟩ := by
  simp only [generatePhase, if_pos htier]

theorem generatePhase_ok_pro (σ : Type) (s : σ) (key : String) (store : Store σ) :
    generatePhase σ (some "pro") (.ok s) key store = ⟨.viewer s, store, 1⟩ := by
  simp only [generatePhase]
  rw [if_neg (fun h => h rfl)]

/-- With a non-empty request and a non-pro tier, `handleGenerate` dispatches on
the cache entry under the request's fingerprint. -/
theorem handleGenerate_cache (σ : Type) (input : String) (doc : Option SelectedDoc)
    (tier : Option String) (gen : Except JsError σ) (store : Store σ)
    (hne : ¬ (jsTrim input = "" ∧ doc = none)) (htier : tier ≠ some "pro") :
    handleGenerate σ input doc tier gen store =
      match store (cacheKey input doc) with
      | some .corrupt => ⟨.thrownParse, store, 0⟩
      | some (.valid parsed) => ⟨.viewer parsed, store, 0⟩
      | some .emptyStr => generatePhase σ tier gen (cacheKey input doc) store
      | none => generatePhase σ tier gen (cacheKey input doc) store := by
  unfold handleGenerate
  rw [if_neg hne]
  show (if tier ≠ some "pro" then _ else _) = _
  rw [if_pos htier]

/-- With a non-empty request, a pro-tier call goes straight to generation. -/
theorem handleGenerate_pro (σ : Type) (input : String) (doc : Option SelectedDoc)
    (gen : Except JsError σ) (store : Store σ)
    (hne : ¬ (jsTrim input = "" ∧ doc = none)) :
    handleGenerate σ input doc (some "pro") gen store =
      generatePhase σ (some "pro") gen (cacheKey input doc) store := by
  unfold handleGenerate
  rw [if_neg hne]
  show (if (some "pro" : Option String) ≠ some "pro" then _ else _) = _
  rw [if_neg (fun h => h rfl)]

/-! ## Claims C1, C2, C6, C7 — the tiered result cache -/

/-- **C1**: a free-tier request whose fingerprint has a valid stored entry is
served from the cache with no backend call (strict short-circuit); and calling
the operation twice with `tier="free"`, the same request, and a successful
generation invokes the backend at most once across both calls, with both calls
producing the same outcome. -/
theorem claim_C1_cache_idempotence (σ : Type) (input : String) (doc : Option SelectedDoc)
    (store : Store σ) (s : σ) (gen gen₂ : Except JsError σ)
    (hne : ¬ (jsTrim input = "" ∧ doc = none)) :
    (store (cacheKey input doc) = some (.valid s) →
      handleGenerate σ input doc (some "free") gen store = ⟨.viewer s, store, 0⟩) ∧
    (gen = .ok s →
      (handleGenerate σ input doc (some "free") gen store).genCalls +
        (handleGenerate σ input doc (some "free") gen₂
          (handleGenerate σ input doc (some "free") gen store).store).genCalls ≤ 1 ∧
      (handleGenerate σ input doc (some "free") gen₂
          (handleGenerate σ input doc (some "free") gen store).store).outcome =
        (handleGenerate σ input doc (some "free") gen store).outcome) := by
  have hfree : (some "free" : Option String) ≠ some "pro" := by decide
  have hcache := fun (g : Except JsError σ) (st : Store σ) =>
    handleGenerate_cache σ input doc (some "free") g st hne hfree
  constructor
  · intro hkey
    rw [hcache gen store, hkey]
  · intro hgen
    subst hgen
    cases hkey : store (cacheKey input doc) with
    | none =>
      have e1 : handleGenerate σ input doc (some "free") (.ok s) store =
          ⟨.viewer s, store.set (cacheKey input doc) (.valid s), 1⟩ := by
        rw [hcache (.ok s) store, hkey, generatePhase_ok_free σ (some "free") s _ store hfree]
      have e2 : handleGenerate σ input doc (some "free") gen₂
          (store.set (cacheKey input doc) (.valid s)) =
          ⟨.viewer s, store.set (cacheKey input doc) (.valid s), 0⟩ := by
        rw [hcache gen₂ (store.set (cacheKey input doc) (.valid s)),
          Store.set_self store (cacheKey input doc) (.valid s)]
      rw [e1, e2]
      exact ⟨by simp, rfl⟩
    | some entry =>
      cases entry with
      | emptyStr =>
        have e1 : handleGenerate σ input doc (some "free") (.ok s) store =
            ⟨.viewer s, store.set (cacheKey input doc) (.valid s), 1⟩ := by
          rw [hcache (.ok s) store, hkey, generatePhase_ok_free σ (some "free") s _ store hfree]
        have e2 : handleGenerate σ input doc (some "free") gen₂
            (store.set (cacheKey input doc) (.valid s)) =
            ⟨.viewer s, store.set (cacheKey input doc) (.valid s), 0⟩ := by
          rw [hcache gen₂ (store.set (cacheKey input doc) (.valid s)),
            Store.set_self store (cacheKey input doc) (.valid s)]
        rw [e1, e2]
        exact ⟨by simp, rfl⟩
      | corrupt =>
        have e1 : handleGenerate σ input doc (some "free") (.ok s) store =
            ⟨.thrownParse, store, 0⟩ := by
          rw [hcache (.ok s) store, hkey]
        have e2 : handleGenerate σ input doc (some "free") gen₂ store =
            ⟨.thrownParse, store, 0⟩ := by
          rw [hcache gen₂ store, hkey]
        rw [e1]
        rw [show (⟨.thrownParse, store, 0⟩ : GenState σ).store = store from rfl, e2]
        exact ⟨by simp, rfl⟩
      | valid v =>
        have e1 : handleGenerate σ input doc (some "free") (.ok s) store =
            ⟨.viewer v, store, 0⟩ := by
          rw [hcache (.ok s) store, hkey]
        have e2 : handleGenerate σ input doc (some "free") gen₂ store =
            ⟨.viewer v, store, 0⟩ := by
          rw [hcache gen₂ store, hkey]
        rw [e1]
        rw [show (⟨.viewer v, store, 0⟩ : GenState σ).store = store from rfl, e2]
        exact ⟨by simp, rfl⟩

/-- Witness for C1: a pre-filled cache is served without any generation, and a
miss followed by a resubmission generates exactly once in total. -/
theorem claim_C1_cache_idempotence_witness :
    handleGenerate StudySet "photosynthesis" none (some "free") (.error fatalErrBoom)
        (fun _ => some (.valid ⟨[], [], [], defaultMindmap⟩)) =
      ⟨.viewer ⟨[], [], [], defaultMindmap⟩,
        fun _ => some (.valid ⟨[], [], [], defaultMindmap⟩), 0⟩ ∧
    (handleGenerate StudySet "photosynthesis" none (some "free")
        (.ok ⟨[], [], [], defaultMindmap⟩) (fun _ => none)).genCalls +
      (handleGenerate StudySet "photosynthesis" none (some "free") (.error fatalErrBoom)
        (handleGenerate StudySet "photosynthesis" none (some "free")
          (.ok ⟨[], [], [], defaultMindmap⟩) (fun _ => none)).store).genCalls ≤ 1 := by
  have h1 := claim_C1_cache_idempotence StudySet "photosynthesis" none
    (fun _ => some (.valid ⟨[], [], [], defaultMindmap⟩)) ⟨[], [], [], defaultMindmap⟩
    (.error fatalErrBoom) (.error fatalErrBoom) (by decide)
  have h2 := claim_C1_cache_idempotence StudySet "photosynthesis" none
    (fun _ => none) ⟨[], [], [], defaultMindmap⟩
    (.ok ⟨[], [], [], defaultMindmap⟩) (.error fatalErrBoom) (by decide)
  exact ⟨h1.1 rfl, (h2.2 rfl).1⟩

/-- **C2**: a pro-tier request always invokes the backend exactly once, leaves
the cache store untouched, and its outcome is independent of the cache
contents (the cache is neither read nor written). -/
theorem claim_C2_pro_bypass (σ : Type) (input : String) (doc : Option SelectedDoc)
    (gen : Except JsError σ) (store store' : Store σ)
    (hne : ¬ (jsTrim input = "" ∧ doc = none)) :
    handleGenerate σ input doc (some "pro") gen store =
      ⟨match gen with | .ok s => .viewer s | .error e => .errorState e, store, 1⟩ ∧
    (handleGenerate σ input doc (some "pro") gen store).outcome =
      (handleGenerate σ input doc (some "pro") gen store').outcome := by
  have key : ∀ st : Store σ, handleGenerate σ input doc (some "pro") gen st =
      ⟨match gen with | .ok s => .viewer s | .error e => .errorState e, st, 1⟩ := by
    intro st
    rw [handleGenerate_pro σ input doc gen st hne]
    cases gen with
    | ok s => exact generatePhase_ok_pro σ s _ st
    | error e => rfl
  exact ⟨key store, by rw [key store, key store']⟩

/-- Witness for C2: with a pre-filled cache a pro request still generates
(one call) and the outcome ignores the cache contents. -/
theorem claim_C2_pro_bypass_witness :
    handleGenerate StudySet "photosynthesis" none (some "pro")
        (.ok ⟨[], [], [], defaultMindmap⟩)
        (fun _ => some (.valid ⟨[], [], [], defaultMindmap⟩)) =
      ⟨.viewer ⟨[], [], [], defaultMindmap⟩,
        fun _ => some (.valid ⟨[], [], [], defaultMindmap⟩), 1⟩ ∧
    (handleGenerate StudySet "photosynthesis" none (some "pro")
        (.ok ⟨[], [], [], defaultMindmap⟩)
        (fun _ => some (.valid ⟨[], [], [], defaultMindmap⟩))).outcome =
      (handleGenerate StudySet "photosynthesis" none (some "pro")
        (.ok ⟨[], [], [], defaultMindmap⟩) (fun _ => none)).outcome := by
  exact claim_C2_pro_bypass StudySet "photosynthesis" none
    (.ok ⟨[], [], [], defaultMindmap⟩)
    (fun _ => some (.valid ⟨[], [], [], defaultMindmap⟩)) (fun _ => none) (by decide)

/-- Counterexample to C6 as stated: a corrupt cache entry is **not** treated
as a miss — the cache-hit `JSON.parse` throws outside the try block, the
exception escapes `handleGenerate`, and no regeneration is attempted
(`genCalls = 0`). -/
theorem claim_C6_counterexample :
    handleGenerate StudySet "photosynthesis" none (some "free")
        (.ok ⟨[], [], [], defaultMindmap⟩) (fun _ => some .corrupt) =
      ⟨.thrownParse, fun _ => some .corrupt, 0⟩ := by
  rw [handleGenerate_cache StudySet "photosynthesis" none (some "free")
    (.ok ⟨[], [], [], defaultMindmap⟩) (fun _ => some .corrupt) (by decide) (by decide)]

/-- **C6 (amended)**: a free-tier lookup that finds a corrupt (non-empty,
unparseable) cache entry throws the parse error out of the operation without
invoking generation — it is *not* treated as a miss; the only unparseable
stored value that falls through to regeneration is the empty string, which is
falsy under `if (cachedSet)`. -/
theorem claim_C6_corrupt_entry (σ : Type) (input : String) (doc : Option SelectedDoc)
    (store : Store σ) (gen : Except JsError σ)
    (hne : ¬ (jsTrim input = "" ∧ doc = none)) :
    (store (cacheKey input doc) = some .corrupt →
      handleGenerate σ input doc (some "free") gen store = ⟨.thrownParse, store, 0⟩) ∧
    (store (cacheKey input doc) = some .emptyStr →
      handleGenerate σ input doc (some "free") gen store =
        generatePhase σ (some "free") gen (cacheKey input doc) store) := by
  have hfree : (some "free" : Option String) ≠ some "pro" := by decide
  constructor
  · intro hkey
    rw [handleGenerate_cache σ input doc (some "free") gen store hne hfree, hkey]
  · intro hkey
    rw [handleGenerate_cache σ input doc (some "free") gen store hne hfree, hkey]

/-- Witness for the amended C6 at a concrete corrupt store and a concrete
empty-string store. -/
theorem claim_C6_corrupt_entry_witness :
    handleGenerate StudySet "photosynthesis" none (some "free")
        (.ok ⟨[], [], [], defaultMindmap⟩) (fun _ => some .emptyStr) =
      generatePhase StudySet (some "free") (.ok ⟨[], [], [], defaultMindmap⟩)
        (cacheKey "photosynthesis" none) (fun _ => some .emptyStr) ∧
    handleGenerate StudySet "photosynthesis" none (some "free")
        (.error quotaErr429) (fun _ => some .corrupt) =
      ⟨.thrownParse, fun _ => some .corrupt, 0⟩ := by
  have h1 := claim_C6_corrupt_entry StudySet "photosynthesis" none
    (fun _ => some .emptyStr) (.ok ⟨[], [], [], defaultMindmap⟩) (by decide)
  have h2 := claim_C6_corrupt_entry StudySet "photosynthesis" none
    (fun _ => some .corrupt) (.error quotaErr429) (by decide)
  exact ⟨h1.2 rfl, h2.1 rfl⟩

/-- **C7**: whenever the generation call is actually reached (pro tier, or a
free-tier cache miss — absent key or falsy empty-string entry) and
`generateStudySet` throws, the store is left exactly as it was (no entry
created or overwritten) and the very error thrown is what reaches the catch
block, after exactly one generation attempt. -/
theorem claim_C7_failure_not_cached (σ : Type) (input : String) (doc : Option SelectedDoc)
    (tier : Option String) (store : Store σ) (e : JsError) (gen : Except JsError σ)
    (hne : ¬ (jsTrim input = "" ∧ doc = none)) (hgen : gen = .error e)
    (hreach : tier = some "pro" ∨ store (cacheKey input doc) = none ∨
      store (cacheKey input doc) = some .emptyStr) :
    handleGenerate σ input doc tier gen store = ⟨.errorState e, store, 1⟩ := by
  subst hgen
  by_cases ht : tier = some "pro"
  · subst ht
    rw [handleGenerate_pro σ input doc (.error e) store hne]
    rfl
  · rcases hreach with h | hkey | hkey
    · exact absurd h ht
    · rw [handleGenerate_cache σ input doc tier (.error e) store hne ht, hkey]
      rfl
    · rw [handleGenerate_cache σ input doc tier (.error e) store hne ht, hkey]
      rfl

/-- Witness for C7: a failed generation on a free-tier miss and on the pro
tier leaves the store unchanged and surfaces the error itself. -/
theorem claim_C7_failure_not_cached_witness :
    handleGenerate StudySet "photosynthesis" none (some "free") (.error fatalErrBoom)
        (fun _ => none) =
      ⟨.errorState fatalErrBoom, fun _ => none, 1⟩ ∧
    handleGenerate StudySet "photosynthesis" none (some "pro") (.error quotaErr429)
        (fun _ => some .corrupt) =
      ⟨.errorState quotaErr429, fun _ => some .corrupt, 1⟩ := by
  constructor
  · exact claim_C7_failure_not_cached StudySet "photosynthesis" none (some "free")
      (fun _ => none) fatalErrBoom (.error fatalErrBoom) (by decide) rfl (Or.inr (Or.inl rfl))
  · exact claim_C7_failure_not_cached StudySet "photosynthesis" none (some "pro")
      (fun _ => some .corrupt) quotaErr429 (.error quotaErr429) (by decide) rfl (Or.inl rfl)

/-! ## Claims C9, C10 — normalization -/

theorem withIds_map (α β : Type) (f : String → α → β) (g : β → String)
    (hfg : ∀ s a, g (f s a) = s) (pre : String) (now : Nat) :
    ∀ (i : Nat) (l : List α),
      (withIds f pre now i l).map g =
        (List.range l.length).map (fun j => mkId pre (i + j) now) := by
  intro i l
  induction l generalizing i with
  | nil => simp [withIds]
  | cons a rest ih =>
    simp only [withIds, List.map_cons, List.length_cons, List.range_succ_eq_map,
      List.map_map, Function.comp]
    rw [hfg, ih (i + 1)]
    simp only [List.cons.injEq]
    refine ⟨by simp, ?_⟩
    apply List.map_congr_left
    intro j _
    congr 1
    omega

/-- Every index-assigned id list satisfies the ID discipline. -/
theorem idsSpec_withIds (α β : Type) (f : String → α → β) (g : β → String)
    (hfg : ∀ s a, g (f s a) = s) (pre : String) (now : Nat) (l : List α) :
    IdsSpec pre now ((withIds f pre now 0 l).map g) l.length := by
  have hmap := withIds_map α β f g hfg pre now 0 l
  simp only [Nat.zero_add] at hmap
  refine ⟨hmap, ?_, ?_⟩
  · intro s hs
    rw [hmap] at hs
    simp only [List.mem_map, List.mem_range] at hs
    obtain ⟨j, _, rfl⟩ := hs
    exact mkId_ne_empty pre j now
  · rw [hmap]
    exact List.Nodup.map (fun x y h => mkId_inj pre now h) (List.nodup_range _)

/-- **C9**: in every normalized study set (both variants), every
flashcard/quiz/test item carries the position/time-template id — assigned at
normalization and independent of whatever ids the backend supplied — and these
ids are non-empty and unique within their own list. -/
theorem claim_C9_id_normalization (data1 : RawData1) (data2 : RawData2) (now : Nat) :
    IdsSpec "fc-" now ((normalizeStudySet1 data1 now).flashcards.map (·.id))
      (data1.flashcards.getD []).length ∧
    IdsSpec "quiz-" now ((normalizeStudySet1 data1 now).quiz.map (·.id))
      (data1.quiz.getD []).length ∧
    IdsSpec "test-" now ((normalizeStudySet1 data1 now).test.map (·.id))
      (data1.test.getD []).length ∧
    IdsSpec "fc-" now ((normalizeStudySet2 data2 now).flashcards.map (·.id))
      (data2.flashcards.getD []).length ∧
    IdsSpec "q-" now ((normalizeStudySet2 data2 now).quiz.map (·.id))
      (data2.quiz.getD []).length := by
  refine ⟨?_, ?_, ?_, ?_, ?_⟩
  · exact idsSpec_withIds _ _ _ _ (fun s a => rfl) "fc-" now (data1.flashcards.getD [])
  · exact idsSpec_withIds _ _ _ _ (fun s a => rfl) "quiz-" now (data1.quiz.getD [])
  · exact idsSpec_withIds _ _ _ _ (fun s a => rfl) "test-" now (data1.test.getD [])
  · exact idsSpec_withIds _ _ _ _ (fun s a => rfl) "fc-" now (data2.flashcards.getD [])
  · exact idsSpec_withIds _ _ _ _ (fun s a => rfl) "q-" now (data2.quiz.getD [])

/-- Counterexample to C10 as stated: a variant-2 study set has no `test`
field at all — reading it yields `undefined`, not an array — so "the result's
flashcards, quiz, and test fields are always arrays" fails for variant 2. -/
theorem claim_C10_counterexample :
    (normalizeStudySet2 ⟨none, none, none⟩ 0).testProp = none := rfl

/-- **C10 (amended)**: for every successful normalization, `flashcards` and
`quiz` are always arrays, empty when the backend omits them; variant 1 also
always has a `test` array, while variant 2's result has no `test` field
(reading it yields `undefined`); and both variants default an absent mindmap
to the non-null root labeled `"Main Topic"` with empty children. -/
theorem claim_C10_default_shapes (data1 : RawData1) (data2 : RawData2) (now : Nat) :
    (data1.flashcards = none → (normalizeStudySet1 data1 now).flashcards = []) ∧
    (data1.quiz = none → (normalizeStudySet1 data1 now).quiz = []) ∧
    (data1.test = none → (normalizeStudySet1 data1 now).test = []) ∧
    (data1.mindmap = none → (normalizeStudySet1 data1 now).mindmap = defaultMindmap) ∧
    (data2.flashcards = none → (normalizeStudySet2 data2 now).flashcards = []) ∧
    (data2.quiz = none → (normalizeStudySet2 data2 now).quiz = []) ∧
    (data2.mindmap = none → (normalizeStudySet2 data2 now).mindmap = defaultMindmap) ∧
    (normalizeStudySet2 data2 now).testProp = none ∧
    defaultMindmap = .node "Main Topic" (some "Main topic summary") [] := by
  refine ⟨fun h => ?_, fun h => ?_, fun h => ?_, fun h => ?_, fun h => ?_, fun h => ?_,
    fun h => ?_, rfl, rfl⟩ <;>
    simp [normalizeStudySet1, normalizeStudySet2, h, withIds]

/-- Witness for the amended C10: an entirely absent backend payload normalizes
to empty lists and the default mindmap in both variants. -/
theorem claim_C10_default_shapes_witness :
    (normalizeStudySet1 ⟨none, none, none, none⟩ 0).flashcards = [] ∧
    (normalizeStudySet1 ⟨none, none, none, none⟩ 0).mindmap = defaultMindmap ∧
    (normalizeStudySet2 ⟨none, none, none⟩ 0).quiz = [] ∧
    (normalizeStudySet2 ⟨none, none, none⟩ 0).mindmap = defaultMindmap := by
  have h := claim_C10_default_shapes ⟨none, none, none, none⟩ ⟨none, none, none⟩ 0
  exact ⟨h.1 rfl, h.2.2.2.1 rfl, h.2.2.2.2.2.1 rfl, h.2.2.2.2.2.2.1 rfl⟩

end StuddiSmart
